import Mathlib

/-
  Verification development for the Hexells host shell (`src/hexells.js`).

  The file shallowly embeds the host-side logic of `hexells.js`:
  option validation, the model-shuffle and model-switching state,
  the per-frame render loop, the gesture accumulator, and the calls the
  host issues to the CellularAutomata engine (`ca.js`).  JS numbers that
  carry pixel coordinates or ratios are embedded as rationals (ℚ),
  array indices and counts as Nat/Int, and the JS `%` operator on
  integers as `Int.tmod` (truncating remainder, matching JS sign rules).

  `ca.js` itself is not part of the sources; where a claim depends on the
  engine's own behaviour the engine is modelled from the specification
  (marked `Modelled from the spec:` on the definition).
-/

namespace Hexells

/-- The valid `powerPreference` values, `src/hexells.js` lines 9-13. -/
def powerOptions : List String := ["high-performance", "low-power", "default"]

/-- JS `options.powerPreference || "default"` (line 38): an absent field is
`undefined` and the empty string is also falsy, so both fall back to
`"default"`.  Other falsy JS values cannot occur for a `String` field. -/
def resolvePowerPreference : Option String → String
  | none => "default"
  | some s => if s = "" then "default" else s

/-- The calls the host makes into the CellularAutomata engine.  Pixel
coordinates and radii are rationals; a view size is a pair of pixel
counts; `paint` radius `-1` is the whole-field sentinel. -/
inductive EngineOp where
  | step : EngineOp
  | draw (viewSize : Nat × Nat) (mode : String) : EngineOp
  | paint (x y radius : ℚ) (modelId : Nat) : EngineOp
  | clearCircle (x y radius : ℚ) (viewSize : Nat × Nat) : EngineOp
  | disturb : EngineOp
deriving DecidableEq

/-- Modelled from the spec: `ca.js` (the CellularAutomata engine) is not
under `src/`.  Spec §5 fixes the relevant engine contract: the engine
owns its state buffers, model parameter storage and pass resources,
`destroy()` releases all of them, any operation after `destroy()` fails
with `EngineDestroyedError`, and the field dimensions are fixed at
construction (spec §3, ViewSize "never affects Field dimensions").
The field contents are abstracted to a revision counter. -/
structure CAState where
  destroyed : Bool
  resources : List String
  gridSize : Nat × Nat
  fieldRev : Nat
deriving DecidableEq

/-- Modelled from the spec: engine construction allocates the engine-owned
resources and fixes the grid dimensions (spec §5, §6). -/
def CAState.create (gridSize : Nat × Nat) : CAState :=
  { destroyed := false
    resources := ["stateBuffers", "modelTextures", "passResources"]
    gridSize := gridSize
    fieldRev := 0 }

/-- Modelled from the spec: the engine error relevant to teardown
(spec §7, `EngineDestroyedError`). -/
inductive CAError where
  | engineDestroyed : CAError
deriving DecidableEq

/-- Modelled from the spec: running one engine operation.  Post-destroy
calls fail with `EngineDestroyedError` (spec §5); otherwise steps and
edits affect only the field contents (revision counter) and `draw`
mutates nothing (spec §4.5); no operation changes the grid size
(spec §3). -/
def CAState.runOp (s : CAState) (op : EngineOp) : Except CAError CAState :=
  if s.destroyed then
    Except.error CAError.engineDestroyed
  else
    match op with
    | EngineOp.draw _ _ => Except.ok s
    | _ => Except.ok { s with fieldRev := s.fieldRev + 1 }

/-- Modelled from the spec: `destroy()` releases all engine-owned
resources and marks the engine unusable (spec §5). -/
def CAState.destroy (s : CAState) : CAState :=
  { s with destroyed := true, resources := [] }

/-- Applies a list of engine operations in order, keeping the previous
state when a call fails (a failed call has no effect, spec §7). -/
def applyOps (s : CAState) (ops : List EngineOp) : CAState :=
  ops.foldl (fun st op =>
    match st.runOp op with
    | Except.ok st2 => st2
    | Except.error _ => st) s

/-- The grid dimensions the host passes to the automaton,
`src/hexells.js` line 76: `new CellularAutomata(this.gl, models, [160, 160], ...)`. -/
def hexellsGridSize : Nat × Nat := (160, 160)

/-- The partially constructed engine produced by the `Hexells`
constructor (lines 37-79): the resolved power preference, the GL
context, and the automaton. -/
structure HexellsInstance where
  powerPreference : String
  glContext : Bool
  ca : CAState
deriving DecidableEq

/-- Embedding of the `Hexells` constructor, lines 37-79.  `glOk` is
whether `canvas.getContext` returns a context and `webglSupported`
whether `window.WebGLRenderingContext` exists; both are environment
inputs.  Validation of `powerPreference` happens first, before the GL
context and the automaton are created. -/
def constructHexells (pp : Option String) (glOk webglSupported : Bool) :
    Except String HexellsInstance :=
  let p := resolvePowerPreference pp
  if p ∈ powerOptions then
    if glOk then
      Except.ok { powerPreference := p, glContext := true, ca := CAState.create hexellsGridSize }
    else if webglSupported then
      Except.error "There was an error initializing WebGL. Does your canvas already have a context?"
    else
      Except.error "WebGL is not supported by your browser."
  else
    Except.error (String.append "Invalid powerPreference: " p)

/-- The model-selection state of the host, fields set in `setup`
(lines 89-94) and mutated by `switchModel`/`setModel` (lines 209-224).
`curModelIndex` is an `Int` because JS arithmetic on it goes through
the signed `%` operator. -/
structure HostState where
  shuffledModelIds : List Nat
  curModelIndex : Int
  modelId : Nat
deriving DecidableEq

/-- Lines 89-92: `models.model_names.map((_, i) => [Math.random(), i]).sort().map((p) => p[1])`.
`rand` stands for the stream of `Math.random()` draws (one per index) and
`le` for the comparator JS's default `sort` induces by comparing the
string forms of the `[random, index]` pairs; the development quantifies
over both, and every sort result is a permutation of its input
regardless of the comparator. -/
def shuffledModelIds (le : ℚ × Nat → ℚ × Nat → Bool) (rand : Nat → ℚ) (n : Nat) : List Nat :=
  (((List.range n).map (fun i => (rand i, i))).mergeSort le).map Prod.snd

/-- Lines 89-94 of `setup`: computes `shuffledModelIds`, then
`curModelIndex = shuffledModelIds[0]` and
`modelId = shuffledModelIds[curModelIndex]` (out-of-range JS indexing is
embedded as `getD` with default `0`; under `0 < n` both reads are in
range). -/
def setupState (le : ℚ × Nat → ℚ × Nat → Bool) (rand : Nat → ℚ) (n : Nat) : HostState :=
  let s := shuffledModelIds le rand n
  let cur : Nat := s.getD 0 0
  { shuffledModelIds := s, curModelIndex := (cur : Int), modelId := s.getD cur 0 }

/-- Lines 220-224: `setModel(id)` stores the id and issues
`ca.paint(0, 0, -1, id)` then `ca.disturb()`. -/
def setModel (st : HostState) (id : Nat) : HostState × List EngineOp :=
  ({ st with modelId := id }, [EngineOp.paint 0 0 (-1) id, EngineOp.disturb])

/-- Lines 209-214: `switchModel(swipe)` advances `curModelIndex` by
`(curModelIndex + numModels + swipe) % numModels` (JS `%` = `Int.tmod`),
looks up the id at the new index, and delegates to `setModel`. -/
def switchModel (st : HostState) (swipe : Int) : HostState × List EngineOp :=
  let numModels : Int := st.shuffledModelIds.length
  let cur := (st.curModelIndex + numModels + swipe).tmod numModels
  let id := st.shuffledModelIds.getD cur.toNat 0
  setModel { st with curModelIndex := cur } id

/-- The state part of `switchModel`, for iterating round trips. -/
def switchModelState (swipe : Int) (st : HostState) : HostState :=
  (switchModel st swipe).1

/-- The canvas as the host sees it: `clientWidth`/`clientHeight` are the
CSS layout dimensions (external inputs, determined by the page layout
and left unchanged when the backing-store attributes are assigned,
as for a CSS-sized canvas such as one styled through the `hexells`
class added in `setup`), and `width`/`height` are the backing-store
attributes the host assigns in `render`. -/
structure Canvas where
  clientWidth : Nat
  clientHeight : Nat
  width : Nat
  height : Nat
deriving DecidableEq

/-- Lines 230-235: `getViewSize` returns
`[canvas.clientWidth || canvas.width, canvas.clientHeight || canvas.height]`
(a zero client dimension is falsy and falls back to the attribute). -/
def getViewSize (c : Canvas) : Nat × Nat :=
  ((if c.clientWidth = 0 then c.width else c.clientWidth),
   (if c.clientHeight = 0 then c.height else c.clientHeight))

/-- JS `Math.round` on a nonnegative rational: floor of `q + 1/2`,
taken back to `Nat` for the canvas attributes. -/
def jsRound (q : ℚ) : Nat :=
  (⌊q + 1 / 2⌋).toNat

/-- Lines 245-252 of `render`: read `getViewSize()`, set the canvas
backing store to `Math.round(size * dpr)` where
`dpr = window.devicePixelRatio || 1`, and re-read `getViewSize()` on the
updated canvas — that second read is the `viewSize` argument passed to
`ca.draw`.  Returns the updated canvas and that argument. -/
def renderResize (c : Canvas) (dpr : ℚ) : Canvas × (Nat × Nat) :=
  let d := if dpr = 0 then 1 else dpr
  let w := (getViewSize c).1
  let h := (getViewSize c).2
  let c2 : Canvas := { c with width := jsRound ((w : ℚ) * d), height := jsRound ((h : ℚ) * d) }
  (c2, getViewSize c2)

/-- Lines 241-243 of `render`: `for (let i = 0; i < stepPerFrame; ++i) this.ca.step()`,
as the list of engine calls the loop issues, in order. -/
def stepLoopOps : Nat → List EngineOp
  | 0 => []
  | k + 1 => stepLoopOps k ++ [EngineOp.step]

/-- Lines 240-252 of `render`, one frame: the step loop, the canvas
resize, then `ca.draw(this.getViewSize(), "color")`.  Returns the
updated canvas, the engine state after the frame's calls, and the list
of engine calls the frame issued, in order. -/
def renderFrame (stepPerFrame : Nat) (dpr : ℚ) (c : Canvas) (s : CAState) :
    Canvas × CAState × List EngineOp :=
  let r := renderResize c dpr
  let ops := stepLoopOps stepPerFrame ++ [EngineOp.draw r.2 "color"]
  (r.1, applyOps s ops, ops)

/-- Lines 156-165: `startGestue(pos)` creates the gesture record with all
four drag accumulators at `0`, the start position and the start time. -/
structure Gesture where
  d : ℚ
  l : ℚ
  prevPos : ℚ × ℚ
  r : ℚ
  time : Int
  u : ℚ
deriving DecidableEq

/-- Lines 156-165: the fresh gesture record. -/
def startGestue (pos : ℚ × ℚ) (now : Int) : Gesture :=
  { d := 0, l := 0, prevPos := pos, r := 0, time := now, u := 0 }

/-- Lines 171-181, the gesture part of `touch(pos)`: each accumulator
gains `Math.max(delta, 0)` of the signed displacement from `prevPos`,
and `prevPos` becomes `pos`.  (The `ca.clearCircle` call `touch` also
makes is issued by the host machine below.) -/
def touchGesture (g : Gesture) (pos : ℚ × ℚ) : Gesture :=
  { g with
    l := g.l + max (g.prevPos.1 - pos.1) 0
    r := g.r + max (pos.1 - g.prevPos.1) 0
    u := g.u + max (g.prevPos.2 - pos.2) 0
    d := g.d + max (pos.2 - g.prevPos.2) 0
    prevPos := pos }

/-- Host lifecycle phase: `constructed` is the span between the
constructor returning (line 79) and the automaton invoking the ready
callback `() => this.setup(models)` (lines 76-78); `ready` is after
`setup` has run. -/
inductive HostPhase where
  | constructed : HostPhase
  | ready : HostPhase
deriving DecidableEq

/-- The whole host object: lifecycle phase, model-selection state,
canvas, the options fixed by the constructor (lines 59-63), and the
engine. -/
structure HostFull where
  phase : HostPhase
  responsive : Bool
  brushRadius : ℚ
  stepPerFrame : Nat
  dpr : ℚ
  model : HostState
  canvas : Canvas
  ca : CAState

/-- The external stimuli that can reach the host: the automaton firing
the ready callback, the keypress handler's two keys (lines 141-144), the
`setInterval` tick (line 146), the animation frame (lines 149, 254-256),
a pointer/touch position reaching `touch` (lines 113-139), and the two
swipe outcomes of `endGestue` (lines 193-199). -/
inductive HostEvent where
  | caReady : HostEvent
  | keyA : HostEvent
  | keyZ : HostEvent
  | intervalTick : HostEvent
  | animationFrame : HostEvent
  | pointerTouch (pos : ℚ × ℚ) : HostEvent
  | swipeLeft : HostEvent
  | swipeRight : HostEvent
deriving DecidableEq

/-- Applies a model-state transition that also emits engine calls,
running the emitted calls on the engine. -/
def applyEmit (h : HostFull) (p : HostState × List EngineOp) : HostFull × List EngineOp :=
  ({ h with model := p.1, ca := applyOps h.ca p.2 }, p.2)

/-- One host transition.  Before `setup` has run (phase `constructed`)
no handler, interval or animation frame is registered — `setup`
(lines 98-149) registers all of them — so only the ready callback has
any effect; every other event finds nothing to run.  In phase `ready`
the transitions follow the handlers `setup` registered: keys and the
interval call `switchModel`, a touch calls `ca.clearCircle`, a resolved
swipe calls `switchModel`, and an animation frame runs `render`.
`setup` itself (run by the ready callback) computes the shuffle and
issues the initial `ca.paint(0, 0, -1, modelId)` (line 95). -/
def hostStep (le : ℚ × Nat → ℚ × Nat → Bool) (rand : Nat → ℚ) (nModels : Nat)
    (h : HostFull) (e : HostEvent) : HostFull × List EngineOp :=
  match h.phase, e with
  | HostPhase.constructed, HostEvent.caReady =>
      let st := setupState le rand nModels
      let ops := [EngineOp.paint 0 0 (-1) st.modelId]
      ({ h with phase := HostPhase.ready, model := st, ca := applyOps h.ca ops }, ops)
  | HostPhase.constructed, _ => (h, [])
  | HostPhase.ready, HostEvent.caReady =>
      let st := setupState le rand nModels
      let ops := [EngineOp.paint 0 0 (-1) st.modelId]
      ({ h with model := st, ca := applyOps h.ca ops }, ops)
  | HostPhase.ready, HostEvent.keyA =>
      if h.responsive then applyEmit h (switchModel h.model 1) else (h, [])
  | HostPhase.ready, HostEvent.keyZ =>
      if h.responsive then applyEmit h (switchModel h.model (-1)) else (h, [])
  | HostPhase.ready, HostEvent.intervalTick =>
      if h.responsive then (h, []) else applyEmit h (switchModel h.model 1)
  | HostPhase.ready, HostEvent.pointerTouch pos =>
      if h.responsive then
        let ops := [EngineOp.clearCircle pos.1 pos.2 h.brushRadius (getViewSize h.canvas)]
        ({ h with ca := applyOps h.ca ops }, ops)
      else (h, [])
  | HostPhase.ready, HostEvent.swipeLeft =>
      if h.responsive then applyEmit h (switchModel h.model (-1)) else (h, [])
  | HostPhase.ready, HostEvent.swipeRight =>
      if h.responsive then applyEmit h (switchModel h.model 1) else (h, [])
  | HostPhase.ready, HostEvent.animationFrame =>
      let r := renderFrame h.stepPerFrame h.dpr h.canvas h.ca
      ({ h with canvas := r.1, ca := r.2.1 }, r.2.2)

/-- Runs a trace of events, concatenating the engine calls each
transition issues, in order. -/
def runHost (le : ℚ × Nat → ℚ × Nat → Bool) (rand : Nat → ℚ) (nModels : Nat)
    (h : HostFull) : List HostEvent → HostFull × List EngineOp
  | [] => (h, [])
  | e :: tr =>
      let p := hostStep le rand nModels h e
      let q := runHost le rand nModels p.1 tr
      (q.1, p.2 ++ q.2)

/-- The model-selection states the host can be in: the state `setup`
establishes (lines 89-94), and anything reached from it by the
`switchModel(±1)` calls the registered handlers make (keypress `a`/`z`,
the interval tick, and `endGestue`'s two swipe branches). -/
inductive ReachableHostState (le : ℚ × Nat → ℚ × Nat → Bool) (rand : Nat → ℚ) (n : Nat) :
    HostState → Prop where
  | setup : ReachableHostState le rand n (setupState le rand n)
  | switch (st : HostState) (swipe : Int) (hsw : swipe = 1 ∨ swipe = -1)
      (h : ReachableHostState le rand n st) :
      ReachableHostState le rand n (switchModelState swipe st)

/-- Recognizes a `step` engine call. -/
def isStepOp : EngineOp → Bool
  | EngineOp.step => true
  | _ => false

/-- Recognizes a `draw` engine call. -/
def isDrawOp : EngineOp → Bool
  | EngineOp.draw _ _ => true
  | _ => false

/-- Recognizes a `paint` engine call. -/
def isPaintOp : EngineOp → Bool
  | EngineOp.paint _ _ _ _ => true
  | _ => false

/-- Recognizes a `disturb` engine call. -/
def isDisturbOp : EngineOp → Bool
  | EngineOp.disturb => true
  | _ => false

/-- The invariant `setup` establishes and `switchModel` maintains: the
model list is nonempty, the current index is in range, and the stored
model id is the list entry at the current index. -/
def GoodHostState (st : HostState) : Prop :=
  0 < st.shuffledModelIds.length ∧
  0 ≤ st.curModelIndex ∧
  st.curModelIndex < (st.shuffledModelIds.length : Int) ∧
  st.modelId = st.shuffledModelIds.getD st.curModelIndex.toNat 0

theorem getD_mem_of_lt (s : List Nat) (i : Nat) (h : i < s.length) : s.getD i 0 ∈ s := by
  rw [List.getD_eq_getElem s 0 h]
  exact List.getElem_mem h

theorem shuffledModelIds_perm (le : ℚ × Nat → ℚ × Nat → Bool) (rand : Nat → ℚ) (n : Nat) :
    (shuffledModelIds le rand n).Perm (List.range n) := by
  have h1 := List.mergeSort_perm ((List.range n).map (fun i => (rand i, i))) le
  have h2 := h1.map Prod.snd
  rw [List.map_map] at h2
  simpa [shuffledModelIds, Function.comp_def] using h2

theorem shuffledModelIds_length (le : ℚ × Nat → ℚ × Nat → Bool) (rand : Nat → ℚ) (n : Nat) :
    (shuffledModelIds le rand n).length = n := by
  have := (shuffledModelIds_perm le rand n).length_eq
  simpa using this

theorem shuffledModelIds_mem_lt (le : ℚ × Nat → ℚ × Nat → Bool) (rand : Nat → ℚ) (n : Nat)
    (x : Nat) (hx : x ∈ shuffledModelIds le rand n) : x < n :=
  List.mem_range.mp ((shuffledModelIds_perm le rand n).mem_iff.mp hx)

theorem tmod_cancel_swipe (c n s : Int) (hs : s = 1 ∨ s = -1) (hn : 0 < n)
    (h0 : 0 ≤ c) (hc : c < n) :
    ((c + n + s).tmod n + n + (-s)).tmod n = c := by
  have hnz : n ≠ 0 := hn.ne'
  have hnum1 : 0 ≤ c + n + s := by rcases hs with h | h <;> omega
  have e1 : (c + n + s).tmod n = (c + n + s) % n := Int.tmod_eq_emod hnum1 hn.le
  have hm0 : 0 ≤ (c + n + s) % n := Int.emod_nonneg _ hnz
  have hnum2 : 0 ≤ (c + n + s) % n + n + (-s) := by rcases hs with h | h <;> omega
  rw [e1, Int.tmod_eq_emod hnum2 hn.le]
  have e2 : (c + n + s) % n + n + (-s) = (c + n + s) % n + (n + (-s)) := by ring
  rw [e2, Int.emod_add_emod]
  have e3 : c + n + s + (n + (-s)) = c + n * 2 := by ring
  rw [e3, Int.add_mul_emod_self_left]
  exact Int.emod_eq_of_lt h0 hc

theorem tmod_swipe_bounds (c n s : Int) (hs : s = 1 ∨ s = -1) (hn : 0 < n)
    (h0 : 0 ≤ c) :
    0 ≤ (c + n + s).tmod n ∧ (c + n + s).tmod n < n := by
  have hnz : n ≠ 0 := hn.ne'
  have hnum1 : 0 ≤ c + n + s := by rcases hs with h | h <;> omega
  rw [Int.tmod_eq_emod hnum1 hn.le]
  exact ⟨Int.emod_nonneg _ hnz, Int.emod_lt_of_pos _ hn⟩

theorem switchModelState_eq (swipe : Int) (st : HostState) :
    switchModelState swipe st =
      { shuffledModelIds := st.shuffledModelIds
        curModelIndex :=
          (st.curModelIndex + (st.shuffledModelIds.length : Int) + swipe).tmod
            (st.shuffledModelIds.length : Int)
        modelId :=
          st.shuffledModelIds.getD
            ((st.curModelIndex + (st.shuffledModelIds.length : Int) + swipe).tmod
              (st.shuffledModelIds.length : Int)).toNat 0 } := rfl

theorem switchModelState_good (swipe : Int) (st : HostState)
    (hs : swipe = 1 ∨ swipe = -1) (h : GoodHostState st) :
    GoodHostState (switchModelState swipe st) := by
  obtain ⟨hn, h0, hc, _⟩ := h
  have hnInt : 0 < (st.shuffledModelIds.length : Int) := by exact_mod_cast hn
  have hb := tmod_swipe_bounds st.curModelIndex (st.shuffledModelIds.length : Int) swipe hs hnInt h0
  rw [switchModelState_eq]
  exact ⟨hn, hb.1, hb.2, rfl⟩

theorem switchModelState_cancel (swipe : Int) (st : HostState)
    (hs : swipe = 1 ∨ swipe = -1) (h : GoodHostState st) :
    switchModelState (-swipe) (switchModelState swipe st) = st := by
  obtain ⟨sh, cur, mid⟩ := st
  obtain ⟨hn, h0, hc, hid⟩ := h
  have hnInt : 0 < ((sh.length : Nat) : Int) := by exact_mod_cast hn
  have hcancel := tmod_cancel_swipe cur (sh.length : Int) swipe hs hnInt h0 hc
  have hid2 : mid = sh.getD cur.toNat 0 := hid
  simp only [switchModelState_eq, HostState.mk.injEq]
  refine ⟨trivial, hcancel, ?_⟩
  rw [hcancel]
  exact hid2.symm

theorem switchModelState_iterate_good (swipe : Int) (hs : swipe = 1 ∨ swipe = -1)
    (k : Nat) (st : HostState) (h : GoodHostState st) :
    GoodHostState ((switchModelState swipe)^[k] st) := by
  induction k generalizing st with
  | zero => simpa using h
  | succ k ih =>
      rw [Function.iterate_succ_apply]
      exact ih (switchModelState swipe st) (switchModelState_good swipe st hs h)

theorem switchModelState_iterate_cancel (swipe : Int) (hs : swipe = 1 ∨ swipe = -1)
    (k : Nat) (st : HostState) (h : GoodHostState st) :
    (switchModelState (-swipe))^[k] ((switchModelState swipe)^[k] st) = st := by
  induction k generalizing st with
  | zero => rfl
  | succ k ih =>
      rw [Function.iterate_succ_apply' (switchModelState swipe),
        Function.iterate_succ_apply (switchModelState (-swipe))]
      have hg : GoodHostState ((switchModelState swipe)^[k] st) :=
        switchModelState_iterate_good swipe hs k st h
      rw [switchModelState_cancel swipe _ hs hg]
      exact ih st h

theorem setupState_good (le : ℚ × Nat → ℚ × Nat → Bool) (rand : Nat → ℚ) (n : Nat)
    (hn : 0 < n) : GoodHostState (setupState le rand n) := by
  have hlen := shuffledModelIds_length le rand n
  have hlen0 : 0 < (shuffledModelIds le rand n).length := by omega
  have hcur : (shuffledModelIds le rand n).getD 0 0 ∈ shuffledModelIds le rand n :=
    getD_mem_of_lt _ 0 hlen0
  have hcurlt : (shuffledModelIds le rand n).getD 0 0 < n :=
    shuffledModelIds_mem_lt le rand n _ hcur
  refine ⟨hlen0, ?_, ?_, ?_⟩
  · exact Int.ofNat_nonneg _
  · show ((shuffledModelIds le rand n).getD 0 0 : Int) < _
    exact_mod_cast (by omega : (shuffledModelIds le rand n).getD 0 0 < (shuffledModelIds le rand n).length)
  · show (shuffledModelIds le rand n).getD ((shuffledModelIds le rand n).getD 0 0) 0 =
      (shuffledModelIds le rand n).getD (((shuffledModelIds le rand n).getD 0 0 : Int)).toNat 0
    rw [Int.toNat_natCast]

theorem good_modelId_mem (st : HostState) (h : GoodHostState st) :
    st.modelId ∈ st.shuffledModelIds := by
  obtain ⟨hn, h0, hc, hid⟩ := h
  have hlt : st.curModelIndex.toNat < st.shuffledModelIds.length := by
    rw [Int.toNat_lt h0]
    exact hc
  rw [hid]
  exact getD_mem_of_lt _ _ hlt

theorem stepLoopOps_eq_replicate (k : Nat) :
    stepLoopOps k = List.replicate k EngineOp.step := by
  induction k with
  | zero => rfl
  | succ k ih => rw [stepLoopOps, ih, List.replicate_succ']

theorem countP_of_replicate (p : EngineOp → Bool) (n : Nat) (a : EngineOp) :
    List.countP p (List.replicate n a) = if p a then n else 0 := by
  induction n with
  | zero => simp
  | succ n ih =>
      rw [List.replicate_succ, List.countP_cons, ih]
      by_cases h : p a <;> simp [h]

theorem applyOps_gridSize (ops : List EngineOp) : ∀ s : CAState,
    (applyOps s ops).gridSize = s.gridSize := by
  induction ops with
  | nil => intro s; rfl
  | cons op ops ih =>
      intro s
      have h1 : applyOps s (op :: ops) =
          applyOps (match s.runOp op with
                    | Except.ok s2 => s2
                    | Except.error _ => s) ops := rfl
      rw [h1, ih]
      by_cases hd : s.destroyed <;> cases op <;> simp [CAState.runOp, hd]

theorem foldl_touchGesture_mono (ps : List (ℚ × ℚ)) : ∀ g : Gesture,
    g.l ≤ (List.foldl touchGesture g ps).l ∧ g.r ≤ (List.foldl touchGesture g ps).r ∧
    g.u ≤ (List.foldl touchGesture g ps).u ∧ g.d ≤ (List.foldl touchGesture g ps).d := by
  induction ps with
  | nil => intro g; exact ⟨le_refl _, le_refl _, le_refl _, le_refl _⟩
  | cons p ps ih =>
      intro g
      have hstep : g.l ≤ (touchGesture g p).l ∧ g.r ≤ (touchGesture g p).r ∧
          g.u ≤ (touchGesture g p).u ∧ g.d ≤ (touchGesture g p).d := by
        refine ⟨?_, ?_, ?_, ?_⟩ <;>
          exact le_add_of_nonneg_right (le_max_right _ _)
      have hrest := ih (touchGesture g p)
      rw [List.foldl_cons]
      exact ⟨hstep.1.trans hrest.1, hstep.2.1.trans hrest.2.1,
        hstep.2.2.1.trans hrest.2.2.1, hstep.2.2.2.trans hrest.2.2.2⟩

theorem reachable_shuffled (le : ℚ × Nat → ℚ × Nat → Bool) (rand : Nat → ℚ) (n : Nat)
    (st : HostState) (h : ReachableHostState le rand n st) :
    st.shuffledModelIds = shuffledModelIds le rand n := by
  induction h with
  | setup => rfl
  | switch st swipe hsw h ih => exact ih

theorem reachable_good (le : ℚ × Nat → ℚ × Nat → Bool) (rand : Nat → ℚ) (n : Nat)
    (st : HostState) (hn : 0 < n) (h : ReachableHostState le rand n st) :
    GoodHostState st := by
  induction h with
  | setup => exact setupState_good le rand n hn
  | switch st swipe hsw h ih => exact switchModelState_good swipe st hsw ih

/-- C1: for every starting state whose index is in range (and whose model
id is the shuffled entry at that index, as `setup` establishes) and
every count `k`, `switchModel(1)` `k` times followed by `switchModel(-1)`
`k` times — or the reverse — returns the host state, hence
`curModelIndex` and the selected model id, to its original value, by
modular arithmetic over the length of the shuffled model list. -/
theorem switchModel_round_trip (st : HostState) (k : Nat)
    (hn : 0 < st.shuffledModelIds.length)
    (h0 : 0 ≤ st.curModelIndex)
    (hc : st.curModelIndex < (st.shuffledModelIds.length : Int))
    (hid : st.modelId = st.shuffledModelIds.getD st.curModelIndex.toNat 0) :
    (switchModelState (-1))^[k] ((switchModelState 1)^[k] st) = st ∧
    (switchModelState 1)^[k] ((switchModelState (-1))^[k] st) = st ∧
    ((switchModelState (-1))^[k] ((switchModelState 1)^[k] st)).modelId = st.modelId := by
  have hg : GoodHostState st := ⟨hn, h0, hc, hid⟩
  have h1 : (switchModelState (-1))^[k] ((switchModelState 1)^[k] st) = st := by
    have hx := switchModelState_iterate_cancel 1 (Or.inl rfl) k st hg
    simpa using hx
  have h2 : (switchModelState 1)^[k] ((switchModelState (-1))^[k] st) = st := by
    have hx := switchModelState_iterate_cancel (-1) (Or.inr rfl) k st hg
    simpa using hx
  exact ⟨h1, h2, by rw [h1]⟩

/-- Witness for C1: a concrete three-model state at index 1, with k = 3. -/
theorem switchModel_round_trip_witness :
    (0 < ([2, 0, 1] : List Nat).length ∧
      (0 : Int) ≤ 1 ∧
      (1 : Int) < (([2, 0, 1] : List Nat).length : Int) ∧
      ((⟨[2, 0, 1], 1, 0⟩ : HostState).modelId =
        ([2, 0, 1] : List Nat).getD (1 : Int).toNat 0)) ∧
    ((switchModelState (-1))^[3] ((switchModelState 1)^[3] (⟨[2, 0, 1], 1, 0⟩ : HostState)) =
        (⟨[2, 0, 1], 1, 0⟩ : HostState) ∧
      (switchModelState 1)^[3] ((switchModelState (-1))^[3] (⟨[2, 0, 1], 1, 0⟩ : HostState)) =
        (⟨[2, 0, 1], 1, 0⟩ : HostState) ∧
      ((switchModelState (-1))^[3] ((switchModelState 1)^[3]
          (⟨[2, 0, 1], 1, 0⟩ : HostState))).modelId =
        (⟨[2, 0, 1], 1, 0⟩ : HostState).modelId) :=
  ⟨⟨by decide, by decide, by decide, by decide⟩,
    switchModel_round_trip ⟨[2, 0, 1], 1, 0⟩ 3 (by decide) (by decide) (by decide) (by decide)⟩

/-- C2: in every model-selection state the host can reach (the state
`setup` establishes, and anything `switchModel(±1)` produces from it),
`shuffledModelIds` is a permutation of `{0, ..., n-1}`, the stored
`modelId` — the id every `ca.paint` call receives — is an element of
`shuffledModelIds` and lies in `[0, n)`, and `curModelIndex` is in
range; moreover `setup` paints `shuffledModelIds[shuffledModelIds[0]]`. -/
theorem host_paint_ids_in_range (le : ℚ × Nat → ℚ × Nat → Bool) (rand : Nat → ℚ)
    (n : Nat) (st : HostState) (hn : 0 < n) (h : ReachableHostState le rand n st) :
    st.shuffledModelIds.Perm (List.range n) ∧
    st.modelId ∈ st.shuffledModelIds ∧
    st.modelId < n ∧
    0 ≤ st.curModelIndex ∧ st.curModelIndex < (n : Int) ∧
    (setupState le rand n).modelId =
      (shuffledModelIds le rand n).getD ((shuffledModelIds le rand n).getD 0 0) 0 := by
  have hsh := reachable_shuffled le rand n st h
  have hg := reachable_good le rand n st hn h
  have hperm : st.shuffledModelIds.Perm (List.range n) := by
    rw [hsh]
    exact shuffledModelIds_perm le rand n
  have hmem := good_modelId_mem st hg
  have hlt : st.modelId < n := List.mem_range.mp (hperm.mem_iff.mp hmem)
  have hlen : st.shuffledModelIds.length = n := by simpa using hperm.length_eq
  obtain ⟨h1, h2, h3, h4⟩ := hg
  rw [hlen] at h3
  exact ⟨hperm, hmem, hlt, h2, h3, rfl⟩

/-- Witness for C2: two models, the state established by `setup`. -/
theorem host_paint_ids_in_range_witness :
    0 < 2 ∧
    ((setupState (fun _ _ => true) (fun _ => 0) 2).shuffledModelIds.Perm (List.range 2) ∧
      (setupState (fun _ _ => true) (fun _ => 0) 2).modelId ∈
        (setupState (fun _ _ => true) (fun _ => 0) 2).shuffledModelIds ∧
      (setupState (fun _ _ => true) (fun _ => 0) 2).modelId < 2 ∧
      0 ≤ (setupState (fun _ _ => true) (fun _ => 0) 2).curModelIndex ∧
      (setupState (fun _ _ => true) (fun _ => 0) 2).curModelIndex < (2 : Int) ∧
      (setupState (fun _ _ => true) (fun _ => 0) 2).modelId =
        (shuffledModelIds (fun _ _ => true) (fun _ => 0) 2).getD
          ((shuffledModelIds (fun _ _ => true) (fun _ => 0) 2).getD 0 0) 0) :=
  ⟨by decide,
    host_paint_ids_in_range (fun _ _ => true) (fun _ => 0) 2
      (setupState (fun _ _ => true) (fun _ => 0) 2) (by decide) ReachableHostState.setup⟩

/-- C3: each rendered frame issues exactly `stepPerFrame` `ca.step()`
calls followed by exactly one `ca.draw(viewSize, "color")`, in that
order, with no draw between the steps of one frame, and with
`stepPerFrame = 0` the frame issues zero steps and still draws. -/
theorem render_frame_steps_then_draw (spf : Nat) (dpr : ℚ) (c : Canvas) (s : CAState) :
    (renderFrame spf dpr c s).2.2 =
      List.replicate spf EngineOp.step ++ [EngineOp.draw (renderResize c dpr).2 "color"] ∧
    ((renderFrame spf dpr c s).2.2).countP isStepOp = spf ∧
    ((renderFrame spf dpr c s).2.2).countP isDrawOp = 1 ∧
    (renderFrame 0 dpr c s).2.2 = [EngineOp.draw (renderResize c dpr).2 "color"] := by
  have hops : (renderFrame spf dpr c s).2.2 =
      List.replicate spf EngineOp.step ++ [EngineOp.draw (renderResize c dpr).2 "color"] := by
    show stepLoopOps spf ++ [EngineOp.draw (renderResize c dpr).2 "color"] = _
    rw [stepLoopOps_eq_replicate]
  refine ⟨hops, ?_, ?_, ?_⟩
  · rw [hops, List.countP_append, countP_of_replicate]
    simp [isStepOp]
  · rw [hops, List.countP_append, countP_of_replicate]
    simp [isStepOp, isDrawOp, List.countP_cons]
  · rfl

/-- C4 counterexample: with CSS layout dimensions 100×100, backing store
50×50 and `devicePixelRatio = 2`, the frame sets the backing store to
200×200 but passes `[100, 100]` — the unscaled display size — to
`ca.draw`, not the dpr-scaled `[200, 200]` the claim asserts. -/
theorem render_draw_viewSize_counterexample :
    (renderResize { clientWidth := 100, clientHeight := 100, width := 50, height := 50 } 2).1.width
        = 200 ∧
    (renderResize { clientWidth := 100, clientHeight := 100, width := 50, height := 50 } 2).2
        = (100, 100) ∧
    ¬ ((renderResize { clientWidth := 100, clientHeight := 100, width := 50, height := 50 } 2).2
        = (jsRound ((100 : ℚ) * 2), jsRound ((100 : ℚ) * 2))) := by
  refine ⟨?_, ?_, ?_⟩ <;> (norm_num [renderResize, getViewSize, jsRound]; try decide)

/-- C4 (amended): each frame sets the canvas backing store to the display
dimensions times `devicePixelRatio` (rounded, with falsy `dpr` replaced
by 1), but the `viewSize` passed to `ca.draw` is `getViewSize()` re-read
after the resize: the unscaled client dimensions whenever they are
nonzero, and only in the zero-client fallback the freshly written
dpr-scaled backing-store size. -/
theorem render_backing_store_scaled_draw_unscaled (c : Canvas) (dpr : ℚ) :
    (renderResize c dpr).1.width =
      jsRound (((getViewSize c).1 : ℚ) * (if dpr = 0 then 1 else dpr)) ∧
    (renderResize c dpr).1.height =
      jsRound (((getViewSize c).2 : ℚ) * (if dpr = 0 then 1 else dpr)) ∧
    (c.clientWidth ≠ 0 → ((renderResize c dpr).2).1 = c.clientWidth) ∧
    (c.clientHeight ≠ 0 → ((renderResize c dpr).2).2 = c.clientHeight) ∧
    (c.clientWidth = 0 → ((renderResize c dpr).2).1 = (renderResize c dpr).1.width) ∧
    (c.clientHeight = 0 → ((renderResize c dpr).2).2 = (renderResize c dpr).1.height) := by
  refine ⟨rfl, rfl, ?_, ?_, ?_, ?_⟩ <;>
    intro h <;> simp [renderResize, getViewSize, h]

/-- Witness for C4 (amended): the same concrete canvas, dpr = 2; the
drawn view width is the unscaled client width 100. -/
theorem render_backing_store_scaled_draw_unscaled_witness :
    (({ clientWidth := 100, clientHeight := 100, width := 50, height := 50 } : Canvas).clientWidth
        ≠ 0) ∧
    ((renderResize { clientWidth := 100, clientHeight := 100, width := 50, height := 50 } 2).2).1
        = ({ clientWidth := 100, clientHeight := 100, width := 50, height := 50 } : Canvas).clientWidth :=
  ⟨by decide,
    (render_backing_store_scaled_draw_unscaled
      { clientWidth := 100, clientHeight := 100, width := 50, height := 50 } 2).2.2.1 (by decide)⟩

/-- C5: after `destroy()`, every engine operation fails with
`EngineDestroyedError` (and no other outcome), and the destroyed engine
holds no engine-owned resources. -/
theorem destroyed_engine_rejects_ops (s : CAState) (op : EngineOp) :
    (CAState.destroy s).runOp op = Except.error CAError.engineDestroyed ∧
    (CAState.destroy s).resources = [] := by
  constructor
  · simp [CAState.runOp, CAState.destroy]
  · rfl

/-- C6: before the ready callback fires (which runs `setup`), no engine
operation is invoked: on any event trace that does not contain the
ready callback, a host still in the `constructed` phase emits no engine
call and does not change at all, because every handler that could call
the engine is registered by `setup`. -/
theorem no_engine_call_before_ready (le : ℚ × Nat → ℚ × Nat → Bool) (rand : Nat → ℚ)
    (n : Nat) (h : HostFull) (tr : List HostEvent)
    (hph : h.phase = HostPhase.constructed) (htr : HostEvent.caReady ∉ tr) :
    (runHost le rand n h tr).2 = [] ∧ (runHost le rand n h tr).1 = h := by
  induction tr generalizing h with
  | nil => exact ⟨rfl, rfl⟩
  | cons e tr ih =>
      have he : e ≠ HostEvent.caReady := by
        intro hhe
        exact htr (by rw [hhe]; exact List.mem_cons_self _ _)
      have htr2 : HostEvent.caReady ∉ tr := fun hm => htr (List.mem_cons_of_mem _ hm)
      have hstep : hostStep le rand n h e = (h, []) := by
        cases e
        case caReady => exact absurd rfl he
        all_goals simp only [hostStep, hph]
      have hrun : runHost le rand n h (e :: tr) =
          ((runHost le rand n h tr).1, [] ++ (runHost le rand n h tr).2) := by
        show ((runHost le rand n (hostStep le rand n h e).1 tr).1,
          (hostStep le rand n h e).2 ++ (runHost le rand n (hostStep le rand n h e).1 tr).2) = _
        rw [hstep]
      obtain ⟨ih1, ih2⟩ := ih h hph htr2
      rw [hrun, ih1, ih2]
      exact ⟨rfl, rfl⟩

/-- Witness for C6: a freshly constructed host sees a keypress and an
animation frame before the ready callback; nothing is emitted. -/
theorem no_engine_call_before_ready_witness :
    ((⟨HostPhase.constructed, true, 16, 1, 1, ⟨[0], 0, 0⟩, ⟨0, 0, 0, 0⟩,
        CAState.create hexellsGridSize⟩ : HostFull).phase = HostPhase.constructed ∧
      HostEvent.caReady ∉ [HostEvent.keyA, HostEvent.animationFrame]) ∧
    ((runHost (fun _ _ => true) (fun _ => 0) 1
        ⟨HostPhase.constructed, true, 16, 1, 1, ⟨[0], 0, 0⟩, ⟨0, 0, 0, 0⟩,
          CAState.create hexellsGridSize⟩
        [HostEvent.keyA, HostEvent.animationFrame]).2 = [] ∧
      (runHost (fun _ _ => true) (fun _ => 0) 1
        ⟨HostPhase.constructed, true, 16, 1, 1, ⟨[0], 0, 0⟩, ⟨0, 0, 0, 0⟩,
          CAState.create hexellsGridSize⟩
        [HostEvent.keyA, HostEvent.animationFrame]).1 =
        ⟨HostPhase.constructed, true, 16, 1, 1, ⟨[0], 0, 0⟩, ⟨0, 0, 0, 0⟩,
          CAState.create hexellsGridSize⟩) :=
  ⟨⟨rfl, by decide⟩,
    no_engine_call_before_ready (fun _ _ => true) (fun _ => 0) 1
      ⟨HostPhase.constructed, true, 16, 1, 1, ⟨[0], 0, 0⟩, ⟨0, 0, 0, 0⟩,
        CAState.create hexellsGridSize⟩
      [HostEvent.keyA, HostEvent.animationFrame] rfl (by decide)⟩

/-- C7: `setModel(id)` issues exactly the whole-field sentinel repaint
`ca.paint(0, 0, -1, id)` followed by exactly one `ca.disturb()`, in that
order; and `switchModel` always delegates to `setModel` with the id at
the advanced index. -/
theorem setModel_paint_then_disturb (st : HostState) (id : Nat) (swipe : Int) :
    (setModel st id).2 = [EngineOp.paint 0 0 (-1) id, EngineOp.disturb] ∧
    ((setModel st id).2).countP isPaintOp = 1 ∧
    ((setModel st id).2).countP isDisturbOp = 1 ∧
    switchModel st swipe =
      setModel
        { st with
          curModelIndex :=
            (st.curModelIndex + (st.shuffledModelIds.length : Int) + swipe).tmod
              (st.shuffledModelIds.length : Int) }
        (st.shuffledModelIds.getD
          ((st.curModelIndex + (st.shuffledModelIds.length : Int) + swipe).tmod
            (st.shuffledModelIds.length : Int)).toNat 0) := by
  refine ⟨rfl, ?_, ?_, rfl⟩ <;>
    simp [setModel, List.countP_cons, isPaintOp, isDisturbOp]

/-- C8: the grid dimensions are passed as `[160, 160]` at construction
and no later engine operation — nor a whole rendered frame with its
canvas resize and `viewSize`-carrying draw — changes them. -/
theorem grid_dimensions_fixed (ops : List EngineOp) (spf : Nat) (dpr : ℚ)
    (c : Canvas) (s : CAState) :
    hexellsGridSize = (160, 160) ∧
    (applyOps (CAState.create hexellsGridSize) ops).gridSize = (160, 160) ∧
    ((renderFrame spf dpr c s).2.1).gridSize = s.gridSize := by
  refine ⟨rfl, ?_, ?_⟩
  · rw [applyOps_gridSize]
    rfl
  · show (applyOps s (stepLoopOps spf ++
        [EngineOp.draw (renderResize c dpr).2 "color"])).gridSize = s.gridSize
    exact applyOps_gridSize _ s

/-- C9 counterexample: `powerPreference: ""` is present and not one of
the three valid options, yet the constructor does not throw — the JS
`||` default treats the empty string as falsy, silently replaces it with
`"default"`, and construction proceeds. -/
theorem powerPreference_empty_not_rejected :
    ¬ ("" ∈ powerOptions) ∧
    constructHexells (some "") true true =
      Except.ok
        { powerPreference := "default", glContext := true,
          ca := CAState.create hexellsGridSize } := by
  exact ⟨by decide, rfl⟩

/-- C9 (amended): for every options object whose `powerPreference` is
present, non-empty (truthy), and not one of the three valid options, the
constructor throws before creating any GL context or automaton — for
both values of the GL environment, no instance is ever produced — and
an absent `powerPreference` defaults to `"default"` and construction
proceeds. -/
theorem constructor_rejects_invalid_powerPreference (pp : String) (glOk ws : Bool)
    (hne : pp ≠ "") (hinv : pp ∉ powerOptions) :
    constructHexells (some pp) glOk ws =
      Except.error (String.append "Invalid powerPreference: " pp) ∧
    (∀ inst : HexellsInstance, constructHexells (some pp) glOk ws ≠ Except.ok inst) ∧
    constructHexells none true true =
      Except.ok
        { powerPreference := "default", glContext := true,
          ca := CAState.create hexellsGridSize } := by
  have h1 : constructHexells (some pp) glOk ws =
      Except.error (String.append "Invalid powerPreference: " pp) := by
    simp [constructHexells, resolvePowerPreference, hne, hinv]
  refine ⟨h1, ?_, rfl⟩
  intro inst hh
  rw [h1] at hh
  exact Except.noConfusion hh

/-- Witness for C9 (amended) at the invalid value `"turbo"`. -/
theorem constructor_rejects_invalid_powerPreference_witness :
    (("turbo" : String) ≠ "" ∧ "turbo" ∉ powerOptions) ∧
    (constructHexells (some "turbo") true true =
        Except.error (String.append "Invalid powerPreference: " "turbo") ∧
      (∀ inst : HexellsInstance, constructHexells (some "turbo") true true ≠ Except.ok inst) ∧
      constructHexells none true true =
        Except.ok
          { powerPreference := "default", glContext := true,
            ca := CAState.create hexellsGridSize }) :=
  ⟨⟨by decide, by decide⟩,
    constructor_rejects_invalid_powerPreference "turbo" true true (by decide) (by decide)⟩

/-- C10: within a single gesture, `startGestue` starts all four drag
accumulators at 0, each `touch` adds `max(delta, 0)` of the
corresponding signed displacement to each accumulator, and across any
sequence of `touch` calls all four accumulators are monotonically
nondecreasing. -/
theorem gesture_accumulators_monotone (pos0 p : ℚ × ℚ) (now : Int) (g : Gesture)
    (ps : List (ℚ × ℚ)) :
    ((startGestue pos0 now).l = 0 ∧ (startGestue pos0 now).r = 0 ∧
      (startGestue pos0 now).u = 0 ∧ (startGestue pos0 now).d = 0) ∧
    ((touchGesture g p).l = g.l + max (g.prevPos.1 - p.1) 0 ∧
      (touchGesture g p).r = g.r + max (p.1 - g.prevPos.1) 0 ∧
      (touchGesture g p).u = g.u + max (g.prevPos.2 - p.2) 0 ∧
      (touchGesture g p).d = g.d + max (p.2 - g.prevPos.2) 0) ∧
    (g.l ≤ (List.foldl touchGesture g ps).l ∧ g.r ≤ (List.foldl touchGesture g ps).r ∧
      g.u ≤ (List.foldl touchGesture g ps).u ∧ g.d ≤ (List.foldl touchGesture g ps).d) :=
  ⟨⟨rfl, rfl, rfl, rfl⟩, ⟨rfl, rfl, rfl, rfl⟩, foldl_touchGesture_mono ps g⟩

end Hexells
